import Mathlib

/-!
Formal model of `pi-camera.py` (repository Images_FW02).

The script is a single-file Python program: an infinite capture loop
(lines 100-126) that on each tick computes a timestamp, captures a frame,
rotates it, writes it to `<output_dir>/<timestamp>.jpg`, appends a line to
`metadata.csv`, shells out to `git add`/`git commit`/`git push`, removes the
local image, calls `manage_disk_usage` (lines 43-58) on the output
directory, and sleeps; plus bootstrap code (lines 60-97) creating the
output directory, `metadata.csv` and `README.md`.

The embedding below models the filesystem of the output directory as a
list of named entries with creation times, disk usage readings (from
`shutil.disk_usage("/")`) as an oracle stream, camera/git/remove outcomes
as explicit environment data, and each executed statement as an `Event` in
a trace.  Exceptions that Python would raise and the script does not catch
are modelled with `Except.error`.
-/

/-- Result of `shutil.disk_usage("/")`: named triple total, used, free (bytes). -/
structure DiskUsage where
  total : Nat
  used : Nat
  free : Nat
deriving Repr, DecidableEq

/-- Line 45 of pi-camera.py: `used_percentage = (used / total) * 100`, with real
division modelled exactly over ℚ. -/
def usedPercentage (d : DiskUsage) : ℚ :=
  ((d.used : ℚ) / (d.total : ℚ)) * 100

/-- One entry of the output directory, as seen by `os.listdir`: a file name
together with its creation time (`os.path.getctime`). -/
structure DirEnt where
  name : String
  ctime : Nat
deriving Repr, DecidableEq

/-- Python's `str.endswith(suffix)` (line 50 uses `f.endswith(".jpg")`): the
suffix's characters are a suffix of the string's characters. -/
def pyEndsWith (s suffix : String) : Bool :=
  List.isSuffixOf suffix.data s.data

/-- Python's `os.path.join(a, b)` on POSIX with a relative second component. -/
def pathJoin (a b : String) : String :=
  a ++ "/" ++ b

/-- Comparison by creation time: the sort key `os.path.getctime` on line 51. -/
def ctimeLE (a b : String × Nat) : Prop :=
  a.2 ≤ b.2

instance : DecidableRel ctimeLE :=
  fun a b => Nat.decLe a.2 b.2

instance : IsTotal (String × Nat) ctimeLE :=
  ⟨fun a b => Nat.le_total a.2 b.2⟩

instance : IsTrans (String × Nat) ctimeLE :=
  ⟨fun _ _ _ hab hbc => Nat.le_trans hab hbc⟩

/-- Lines 49-52 of pi-camera.py: the candidate list of the disk guard —
`sorted((os.path.join(directory, f) for f in os.listdir(directory) if
f.endswith(".jpg")), key=os.path.getctime)` — kept as (path, ctime) pairs,
sorted ascending by creation time with a stable sort (as Python's `sorted`). -/
def jpgCandidatePairs (directory : String) (listing : List DirEnt) : List (String × Nat) :=
  List.insertionSort ctimeLE
    ((listing.filter (fun f => pyEndsWith f.name ".jpg")).map
      (fun f => (pathJoin directory f.name, f.ctime)))

/-- Lines 53-58 of pi-camera.py: `while used_percentage > threshold and files:`
pop the oldest file, `os.remove` it, re-read `shutil.disk_usage("/")` and
recompute the percentage.  `u` is the current percentage; `nextUsage i` is the
percentage computed from the disk reading taken after the (i+1)-th deletion.
Returns the deleted paths in deletion order. -/
def evict (threshold : ℚ) : (Nat → ℚ) → ℚ → List String → List String
  | _, _, [] => []
  | nextUsage, u, f :: rest =>
    if u > threshold then
      f :: evict threshold (fun i => nextUsage (i + 1)) (nextUsage 0) rest
    else []

/-- Lines 43-58 of pi-camera.py: `manage_disk_usage(directory, threshold=80)`.
`disk j` is the j-th reading of `shutil.disk_usage("/")` made by this call
(reading 0 on line 44, reading j ≥ 1 after the j-th deletion on line 57).
The result is the list of paths the call deletes, in order.  This variant
models the baseline run in which every `os.remove` succeeds. -/
def manage_disk_usage (directory : String) (listing : List DirEnt) (disk : Nat → DiskUsage)
    (threshold : ℚ) : List String :=
  if usedPercentage (disk 0) > threshold then
    evict threshold (fun i => usedPercentage (disk (i + 1))) (usedPercentage (disk 0))
      ((jpgCandidatePairs directory listing).map Prod.fst)
  else []

/-- Lines 53-58 of pi-camera.py with the fallibility of `os.remove` made
explicit: `removeOk p` tells whether `os.remove(p)` succeeds.  The source has
no try/except around `os.remove`, so a failing removal raises an `OSError`
that propagates out of the loop, modelled by `Except.error`. -/
def evictE (threshold : ℚ) (removeOk : String → Bool) :
    (Nat → ℚ) → ℚ → List String → Except String (List String)
  | _, _, [] => Except.ok []
  | nextUsage, u, f :: rest =>
    if u > threshold then
      if removeOk f then
        match evictE threshold removeOk (fun i => nextUsage (i + 1)) (nextUsage 0) rest with
        | Except.ok ds => Except.ok (f :: ds)
        | Except.error e => Except.error e
      else Except.error ("OSError: cannot remove " ++ f)
    else Except.ok []

/-- Lines 43-58 of pi-camera.py, the whole `manage_disk_usage` call with
fallible `os.remove`: `Except.error` models an uncaught exception escaping
the function (there is no handler inside it). -/
def manage_disk_usageE (directory : String) (listing : List DirEnt) (disk : Nat → DiskUsage)
    (removeOk : String → Bool) (threshold : ℚ) : Except String (List String) :=
  if usedPercentage (disk 0) > threshold then
    evictE threshold removeOk (fun i => usedPercentage (disk (i + 1))) (usedPercentage (disk 0))
      ((jpgCandidatePairs directory listing).map Prod.fst)
  else Except.ok []

/-- The sequence of usage percentages seen by the eviction loop: reading 0 is
the value the loop entered with, reading j+1 is `nextUsage j`. -/
def usageSeq (u : ℚ) (nextUsage : Nat → ℚ) : Nat → ℚ
  | 0 => u
  | j + 1 => nextUsage j

/-- A decimal digit character, as produced by C `strftime`'s zero-padded
numeric conversions. -/
def digitChar (n : Nat) : Char :=
  Char.ofNat (48 + n)

/-- Two-digit zero-padded decimal, as `strftime`'s `%m %d %H %M %S`. -/
def pad2 (n : Nat) : String :=
  String.mk [digitChar (n / 10 % 10), digitChar (n % 10)]

/-- Four-digit decimal, as `strftime`'s `%Y` for years 1000..9999 (the
realistic clock range on the device; the model fixes the width at 4). -/
def pad4 (n : Nat) : String :=
  String.mk [digitChar (n / 1000 % 10), digitChar (n / 100 % 10),
    digitChar (n / 10 % 10), digitChar (n % 10)]

/-- A broken-down clock reading, the relevant fields of C `struct tm`. -/
structure Tm where
  year : Nat
  mon : Nat
  mday : Nat
  hour : Nat
  minute : Nat
  sec : Nat
deriving Repr, DecidableEq

/-- Model of `time.strftime("%Y%m%d-%H%M%S")` (lines 75 and 101 of
pi-camera.py) on a clock reading: `YYYYMMDD-HHMMSS`. -/
def strftimeYmdHMS (tm : Tm) : String :=
  pad4 tm.year ++ pad2 tm.mon ++ pad2 tm.mday ++ "-" ++
    pad2 tm.hour ++ pad2 tm.minute ++ pad2 tm.sec

/-- Lines 83-85 of pi-camera.py: `if not os.path.exists(metadata_path)` write
the header line.  `none` models a metadata file that does not exist yet; the
result is the file's lines after the bootstrap. -/
def bootstrapMetadata : Option (List String) → List String
  | none => ["Timestamp,Image Path"]
  | some lines => lines

/-- Digit folding used by Python `int()` on a digit string. -/
def digitsToNat (l : List Char) : Nat :=
  l.foldl (fun a c => a * 10 + (c.toNat - 48)) 0

/-- Model of Python's `int(s)` on stripped input, the converter argparse
applies to `image_interval` (line 62): an optional sign followed by one or
more digits; anything else raises `ValueError` (modelled as `none`, which
argparse turns into a usage error).  No positivity check is performed. -/
def pyInt (s : String) : Option Int :=
  match s.data with
  | '-' :: rest =>
    if !rest.isEmpty && rest.all Char.isDigit then some (-(digitsToNat rest : Int)) else none
  | '+' :: rest =>
    if !rest.isEmpty && rest.all Char.isDigit then some ((digitsToNat rest : Int)) else none
  | l =>
    if !l.isEmpty && l.all Char.isDigit then some ((digitsToNat l : Int)) else none

/-- Model of `time.sleep(n)` for integer `n` (line 126): negative arguments
raise `ValueError`, which the loop does not catch. -/
def timeSleep (n : Int) : Except String Unit :=
  if n < 0 then Except.error "ValueError: sleep length must be non-negative"
  else Except.ok ()

/-- Outcome of the guarded block on lines 104-110: `picam2.capture_array()`,
`cv2.rotate(...)`, `cv2.imwrite(...)`.  Any of the three may raise; the
`except` clause catches all of them. -/
inductive CaptureOutcome where
  | ok
  | failCapture (msg : String)
  | failRotate (msg : String)
  | failWrite (msg : String)
deriving Repr, DecidableEq

/-- One observable step of the script, in program order. -/
inductive Event where
  | strftimeCall (t : String)
  | captureArray
  | rotate90CW
  | imwrite (path : String)
  | logLine (msg : String)
  | appendMetadata (t : String) (path : String)
  | gitAdd (paths : List String) (ok : Bool)
  | gitCommit (msg : String) (ok : Bool)
  | gitPush (ok : Bool)
  | osRemove (path : String)
  | manageDiskUsageCall (dir : String) (deleted : List String)
  | timeSleepCall (n : Int)
  | camStop
deriving Repr, DecidableEq

/-- Environment of one loop iteration: everything the outside world decides —
the clock reading, whether capture/rotate/save succeed, the (ignored) exit
statuses of the three git subprocesses, the disk-usage readings the guard
will see, and the creation time the new image file gets. -/
structure IterEnv where
  tm : Tm
  capture : CaptureOutcome
  addOk : Bool
  commitOk : Bool
  pushOk : Bool
  disk : Nat → DiskUsage
  newCtime : Nat

/-- Mutable state the loop threads through iterations: the entries of the
output directory and the lines of `metadata.csv`. -/
structure LoopState where
  dirFiles : List DirEnt
  metadataLines : List String
deriving Repr, DecidableEq

/-- Effect of `cv2.imwrite(path, frame)` on the directory: create the entry,
or overwrite it (refreshing its ctime) if a file of that name exists. -/
def writeFileEntry (entries : List DirEnt) (nm : String) (c : Nat) : List DirEnt :=
  if entries.any (fun e => e.name == nm) then
    entries.map (fun e => if e.name == nm then DirEnt.mk nm c else e)
  else entries ++ [DirEnt.mk nm c]

/-- Effect of `os.remove` on the directory: drop the entry of that name. -/
def removeFileEntry (entries : List DirEnt) (nm : String) : List DirEnt :=
  entries.filter (fun e => e.name != nm)

/-- The CSV line appended on lines 112-113: the formatted string
`timestamp ++ "," ++ image_path`. -/
def ledgerEntry (outputDir : String) (tm : Tm) : String :=
  strftimeYmdHMS tm ++ "," ++ pathJoin outputDir (strftimeYmdHMS tm ++ ".jpg")

/-- Lines 100-126 of pi-camera.py: one pass through the body of `while True`.
Returns the trace of executed steps and either the next state (the pass ended
in `continue` or fell through to the next iteration) or an uncaught
exception.  The `try` on lines 104-110 catches capture/rotate/save errors and
`continue`s; the results of the three `subprocess.run` git calls are never
inspected; `os.remove(image_path)` is unconditional; `time.sleep` raises on a
negative interval and nothing catches it. -/
def runIteration (outputDir metadataPath : String) (interval : Int) (env : IterEnv)
    (s : LoopState) : List Event × Except String LoopState :=
  let timestamp := strftimeYmdHMS env.tm
  let imagePath := pathJoin outputDir (timestamp ++ ".jpg")
  match env.capture with
  | CaptureOutcome.failCapture msg =>
    ([Event.strftimeCall timestamp, Event.captureArray,
      Event.logLine ("Failed to capture or save image: " ++ msg)], Except.ok s)
  | CaptureOutcome.failRotate msg =>
    ([Event.strftimeCall timestamp, Event.captureArray, Event.rotate90CW,
      Event.logLine ("Failed to capture or save image: " ++ msg)], Except.ok s)
  | CaptureOutcome.failWrite msg =>
    ([Event.strftimeCall timestamp, Event.captureArray, Event.rotate90CW,
      Event.logLine ("Failed to capture or save image: " ++ msg)], Except.ok s)
  | CaptureOutcome.ok =>
    let filesAfterWrite := writeFileEntry s.dirFiles (timestamp ++ ".jpg") env.newCtime
    let linesAfterAppend := s.metadataLines ++ [timestamp ++ "," ++ imagePath]
    let filesAfterRemove := removeFileEntry filesAfterWrite (timestamp ++ ".jpg")
    let deleted := manage_disk_usage outputDir filesAfterRemove env.disk 80
    let filesAfterGuard :=
      filesAfterRemove.filter (fun e => !(deleted.contains (pathJoin outputDir e.name)))
    let trace :=
      [Event.strftimeCall timestamp, Event.captureArray, Event.rotate90CW,
        Event.imwrite imagePath,
        Event.appendMetadata timestamp imagePath,
        Event.gitAdd [imagePath, metadataPath] env.addOk,
        Event.gitCommit ("Add image and metadata for " ++ timestamp) env.commitOk,
        Event.gitPush env.pushOk,
        Event.logLine ("Captured and uploaded image at " ++ timestamp),
        Event.osRemove imagePath,
        Event.logLine ("Deleted local image at " ++ imagePath),
        Event.manageDiskUsageCall outputDir deleted]
    match timeSleep interval with
    | Except.error e => (trace, Except.error e)
    | Except.ok _ =>
      (trace ++ [Event.timeSleepCall interval],
        Except.ok (LoopState.mk filesAfterGuard linesAfterAppend))

/-- The loop condition on line 100 of pi-camera.py: literally `while True`. -/
def loopCond : Bool :=
  true

/-- Result of running the program from the top of the loop with bounded fuel:
either the fuel ran out mid-loop, or an uncaught exception terminated the
process, or the loop exited normally and lines 128-129 (`picam2.stop()` and
the final print) executed. -/
inductive ProgResult where
  | outOfFuel (trace : List Event) (s : LoopState)
  | crashed (err : String) (trace : List Event)
  | finished (trace : List Event)
deriving Repr, DecidableEq

/-- Lines 100-129 of pi-camera.py: the `while True` loop followed by
`picam2.stop()` and `print("Camera stopped.")`.  `envs k` is the environment
of the k-th iteration; `fuel` bounds how many loop iterations we unfold. -/
def runLoop (outputDir metadataPath : String) (interval : Int) (envs : Nat → IterEnv) :
    Nat → Nat → LoopState → List Event → ProgResult
  | 0, _, s, acc => ProgResult.outOfFuel acc s
  | fuel + 1, k, s, acc =>
    if loopCond then
      match runIteration outputDir metadataPath interval (envs k) s with
      | (tr, Except.error e) => ProgResult.crashed e (acc ++ tr)
      | (tr, Except.ok s') => runLoop outputDir metadataPath interval envs fuel (k + 1) s' (acc ++ tr)
    else
      ProgResult.finished (acc ++ [Event.camStop, Event.logLine "Camera stopped."])

/-- Trace component of a program result. -/
def traceOf : ProgResult → List Event
  | ProgResult.outOfFuel tr _ => tr
  | ProgResult.crashed _ tr => tr
  | ProgResult.finished tr => tr

/-- Example directory listing: two images (the older is `a.jpg`), the ledger
and the README. -/
def egListing : List DirEnt :=
  [DirEnt.mk "b.jpg" 2, DirEnt.mk "a.jpg" 1,
   DirEnt.mk "metadata.csv" 0, DirEnt.mk "README.md" 0]

/-- Example disk-usage oracle: 90 percent before the guard runs, 70 percent
after one file has been deleted. -/
def egDiskHigh : Nat → DiskUsage :=
  fun j => if j = 0 then DiskUsage.mk 100 90 10 else DiskUsage.mk 100 70 30

/-- Example disk-usage oracle: a constant 50 percent. -/
def egDiskLow : Nat → DiskUsage :=
  fun _ => DiskUsage.mk 100 50 50

/-- Steps that advance persistent state or delay the loop: writing the image,
appending the ledger, the three git subprocesses, the local delete, the
disk-guard call and the sleep. -/
def advancesState : Event → Bool
  | Event.imwrite _ => true
  | Event.appendMetadata _ _ => true
  | Event.gitAdd _ _ => true
  | Event.gitCommit _ _ => true
  | Event.gitPush _ => true
  | Event.osRemove _ => true
  | Event.manageDiskUsageCall _ _ => true
  | Event.timeSleepCall _ => true
  | _ => false

/-- Example clock reading used by concrete witnesses. -/
def egTm : Tm :=
  Tm.mk 2024 5 17 12 30 45

/-- Example iteration environment: capture succeeds, git calls report
success, disk usage stays at 50 percent. -/
def egEnvOk : IterEnv :=
  IterEnv.mk egTm CaptureOutcome.ok true true true egDiskLow 3

/-- Example loop state right after session bootstrap: the directory holds the
ledger and the README, and the ledger holds only its header line. -/
def egState : LoopState :=
  LoopState.mk [DirEnt.mk "metadata.csv" 0, DirEnt.mk "README.md" 0] ["Timestamp,Image Path"]

/-- The loop state after one successful iteration from `egState`: the image
has been written, recorded and deleted again, and the ledger gained one
line. -/
def egStateAfter : LoopState :=
  LoopState.mk [DirEnt.mk "metadata.csv" 0, DirEnt.mk "README.md" 0]
    ["Timestamp,Image Path",
      strftimeYmdHMS egTm ++ "," ++ pathJoin "d" (strftimeYmdHMS egTm ++ ".jpg")]

/-- Example iteration environment in which the camera read raises. -/
def egEnvFail : IterEnv :=
  IterEnv.mk egTm (CaptureOutcome.failCapture "device error") true true true egDiskLow 3

/-- The spec's entry pattern of eight digits, a dash, six digits, a comma,
then anything ending in `.jpg` — the regex written in the spec as
`^\d\x7b8\x7d-\d\x7b6\x7d,.*\.jpg$` — as a Boolean check on a line's
characters. -/
def matchesLedgerPattern (s : String) : Bool :=
  match s.data with
  | d1 :: d2 :: d3 :: d4 :: d5 :: d6 :: d7 :: d8 :: c9 :: h1 :: h2 :: h3 :: h4 :: h5 :: h6 ::
      c16 :: rest =>
    [d1, d2, d3, d4, d5, d6, d7, d8].all Char.isDigit && c9 == '-' &&
    [h1, h2, h3, h4, h5, h6].all Char.isDigit && c16 == ',' &&
    List.isSuffixOf ".jpg".data rest
  | _ => false

/-- The fifteen characters `YYYYMMDD-HHMMSS` of a formatted timestamp. -/
def tsChars (tm : Tm) : List Char :=
  [digitChar (tm.year / 1000 % 10), digitChar (tm.year / 100 % 10),
   digitChar (tm.year / 10 % 10), digitChar (tm.year % 10),
   digitChar (tm.mon / 10 % 10), digitChar (tm.mon % 10),
   digitChar (tm.mday / 10 % 10), digitChar (tm.mday % 10), '-',
   digitChar (tm.hour / 10 % 10), digitChar (tm.hour % 10),
   digitChar (tm.minute / 10 % 10), digitChar (tm.minute % 10),
   digitChar (tm.sec / 10 % 10), digitChar (tm.sec % 10)]

theorem usageSeq_shift (nu : Nat → ℚ) (j : Nat) :
    usageSeq (nu 0) (fun i => nu (i + 1)) j = nu j := by
  cases j <;> rfl

theorem usageSeq_disk (disk : Nat → DiskUsage) (j : Nat) :
    usageSeq (usedPercentage (disk 0)) (fun i => usedPercentage (disk (i + 1))) j =
      usedPercentage (disk j) := by
  cases j <;> rfl

theorem evict_front (threshold : ℚ) (files : List String) :
    ∀ (nextUsage : Nat → ℚ) (u : ℚ), evict threshold nextUsage u files <+: files := by
  induction files with
  | nil =>
    intro nu u
    simp [evict]
  | cons f rest ih =>
    intro nu u
    by_cases h : u > threshold
    · rw [evict, if_pos h]
      exact List.cons_prefix_cons.mpr ⟨rfl, ih _ _⟩
    · rw [evict, if_neg h]
      exact List.nil_prefix

theorem evict_cond_gt (threshold : ℚ) (files : List String) :
    ∀ (nextUsage : Nat → ℚ) (u : ℚ) (j : Nat),
      j < (evict threshold nextUsage u files).length →
      usageSeq u nextUsage j > threshold := by
  induction files with
  | nil =>
    intro nu u j hj
    simp [evict] at hj
  | cons f rest ih =>
    intro nu u j hj
    by_cases h : u > threshold
    · rw [evict, if_pos h] at hj
      simp only [List.length_cons] at hj
      match j with
      | 0 => exact h
      | j' + 1 =>
        have hrec := ih (fun i => nu (i + 1)) (nu 0) j' (by omega)
        rwa [usageSeq_shift] at hrec
    · rw [evict, if_neg h] at hj
      simp at hj

theorem evict_stop_le (threshold : ℚ) (files : List String) :
    ∀ (nextUsage : Nat → ℚ) (u : ℚ),
      (evict threshold nextUsage u files).length < files.length →
      usageSeq u nextUsage (evict threshold nextUsage u files).length ≤ threshold := by
  induction files with
  | nil =>
    intro nu u h
    simp [evict] at h
  | cons f rest ih =>
    intro nu u h
    by_cases hgt : u > threshold
    · rw [evict, if_pos hgt] at h ⊢
      simp only [List.length_cons] at h ⊢
      have h' : (evict threshold (fun i => nu (i + 1)) (nu 0) rest).length < rest.length := by
        omega
      have hrec := ih (fun i => nu (i + 1)) (nu 0) h'
      rw [usageSeq_shift] at hrec
      exact hrec
    · rw [evict, if_neg hgt]
      simpa [usageSeq] using le_of_not_lt hgt

theorem pathJoin_right_inj {a b c : String} (h : pathJoin a b = pathJoin a c) : b = c := by
  have hd := congrArg String.data h
  simp only [pathJoin, String.data_append, List.append_assoc] at hd
  have h2 := List.append_cancel_left hd
  have h3 := List.append_cancel_left h2
  exact String.ext h3

theorem mem_candidates_elim (directory : String) (listing : List DirEnt) (p : String)
    (hp : p ∈ (jpgCandidatePairs directory listing).map Prod.fst) :
    ∃ e ∈ listing, pyEndsWith e.name ".jpg" = true ∧ p = pathJoin directory e.name := by
  obtain ⟨⟨q, c⟩, hq, hfst⟩ := List.mem_map.mp hp
  rw [jpgCandidatePairs, List.mem_insertionSort] at hq
  obtain ⟨e, he, heq⟩ := List.mem_map.mp hq
  obtain ⟨he1, he2⟩ := List.mem_filter.mp he
  refine ⟨e, he1, he2, ?_⟩
  rw [← hfst]
  rw [← heq]

/-- C4: when root-filesystem usage is strictly above the threshold, the disk
guard deletes a prefix of the ascending-ctime-sorted candidate list (so
deletions happen oldest-first), each deletion is performed only while the
most recently recomputed usage still exceeds the threshold (never more files
than necessary), and if it stops with candidates left then the usage
recomputed after its last deletion is at or below the threshold. -/
theorem disk_guard_evicts_oldest_first_minimally
    (directory : String) (listing : List DirEnt) (disk : Nat → DiskUsage) (threshold : ℚ)
    (h : usedPercentage (disk 0) > threshold) :
    manage_disk_usage directory listing disk threshold <+:
      (jpgCandidatePairs directory listing).map Prod.fst ∧
    List.Sorted ctimeLE (jpgCandidatePairs directory listing) ∧
    (∀ j, j < (manage_disk_usage directory listing disk threshold).length →
      usedPercentage (disk j) > threshold) ∧
    ((manage_disk_usage directory listing disk threshold).length <
        ((jpgCandidatePairs directory listing).map Prod.fst).length →
      usedPercentage (disk ((manage_disk_usage directory listing disk threshold).length)) ≤
        threshold) := by
  refine ⟨?_, ?_, ?_, ?_⟩
  · rw [manage_disk_usage, if_pos h]
    exact evict_front _ _ _ _
  · rw [jpgCandidatePairs]
    exact List.sorted_insertionSort ctimeLE _
  · intro j hj
    rw [manage_disk_usage, if_pos h] at hj
    have hc := evict_cond_gt threshold _ _ _ j hj
    rwa [usageSeq_disk] at hc
  · intro hlt
    rw [manage_disk_usage, if_pos h] at hlt ⊢
    have hc := evict_stop_le threshold _ _ _ hlt
    rwa [usageSeq_disk] at hc

theorem egDiskHigh_gt : usedPercentage (egDiskHigh 0) > 80 := by
  norm_num [usedPercentage, egDiskHigh]

theorem egDiskHigh_after_le : usedPercentage (egDiskHigh 1) ≤ 80 := by
  norm_num [usedPercentage, egDiskHigh]

theorem egDiskLow_le : usedPercentage (egDiskLow 0) ≤ 80 := by
  norm_num [usedPercentage, egDiskLow]

/-- Witness for C4 at a concrete directory and disk oracle. -/
theorem disk_guard_evicts_oldest_first_minimally_witness :
    usedPercentage (egDiskHigh 0) > 80 ∧
    (manage_disk_usage "d" egListing egDiskHigh 80 <+:
      (jpgCandidatePairs "d" egListing).map Prod.fst ∧
    List.Sorted ctimeLE (jpgCandidatePairs "d" egListing) ∧
    (∀ j, j < (manage_disk_usage "d" egListing egDiskHigh 80).length →
      usedPercentage (egDiskHigh j) > 80) ∧
    ((manage_disk_usage "d" egListing egDiskHigh 80).length <
        ((jpgCandidatePairs "d" egListing).map Prod.fst).length →
      usedPercentage (egDiskHigh ((manage_disk_usage "d" egListing egDiskHigh 80).length)) ≤
        80)) :=
  ⟨egDiskHigh_gt,
   disk_guard_evicts_oldest_first_minimally "d" egListing egDiskHigh 80 egDiskHigh_gt⟩

/-- C5: with usage at or below the threshold the guard takes the `else`
branch of the `if` on line 47 and deletes nothing; since it is a pure
function of the (unchanged) disk state and listing, an immediately repeated
call deletes nothing as well. -/
theorem disk_guard_noop_at_or_below_threshold
    (directory : String) (listing : List DirEnt) (disk : Nat → DiskUsage) (threshold : ℚ)
    (h : usedPercentage (disk 0) ≤ threshold) :
    manage_disk_usage directory listing disk threshold = [] := by
  rw [manage_disk_usage, if_neg (not_lt.mpr h)]

/-- Witness for C5 at a concrete disk oracle reading 50 percent. -/
theorem disk_guard_noop_at_or_below_threshold_witness :
    usedPercentage (egDiskLow 0) ≤ 80 ∧
    manage_disk_usage "d" egListing egDiskLow 80 = [] :=
  ⟨egDiskLow_le, disk_guard_noop_at_or_below_threshold "d" egListing egDiskLow 80 egDiskLow_le⟩

/-- C6: every path the disk guard deletes is `directory ++ "/" ++ name` for a
directory entry whose name ends in `.jpg`; in particular it is never the
ledger `metadata.csv` nor `README.md`. -/
theorem disk_guard_only_deletes_jpgs_in_directory
    (directory : String) (listing : List DirEnt) (disk : Nat → DiskUsage) (threshold : ℚ) :
    ∀ p ∈ manage_disk_usage directory listing disk threshold,
      (∃ e ∈ listing, pyEndsWith e.name ".jpg" = true ∧ p = pathJoin directory e.name) ∧
      p ≠ pathJoin directory "metadata.csv" ∧ p ≠ pathJoin directory "README.md" := by
  intro p hp
  have hmem : p ∈ (jpgCandidatePairs directory listing).map Prod.fst := by
    by_cases h : usedPercentage (disk 0) > threshold
    · rw [manage_disk_usage, if_pos h] at hp
      exact (evict_front _ _ _ _).sublist.subset hp
    · rw [manage_disk_usage, if_neg h] at hp
      simp at hp
  obtain ⟨e, he, hjpg, hpe⟩ := mem_candidates_elim directory listing p hmem
  refine ⟨⟨e, he, hjpg, hpe⟩, ?_, ?_⟩
  · intro hbad
    rw [hpe] at hbad
    have hname := pathJoin_right_inj hbad
    rw [hname] at hjpg
    exact absurd hjpg (by decide)
  · intro hbad
    rw [hpe] at hbad
    have hname := pathJoin_right_inj hbad
    rw [hname] at hjpg
    exact absurd hjpg (by decide)

theorem egCandidates_eq :
    (jpgCandidatePairs "d" egListing).map Prod.fst =
      [pathJoin "d" "a.jpg", pathJoin "d" "b.jpg"] := by
  decide

theorem egManage_eq :
    manage_disk_usage "d" egListing egDiskHigh 80 = [pathJoin "d" "a.jpg"] := by
  rw [manage_disk_usage, if_pos egDiskHigh_gt, egCandidates_eq, evict, if_pos egDiskHigh_gt,
    evict, if_neg (not_lt.mpr egDiskHigh_after_le)]

/-- Witness for C6: the concrete guard run deletes `d/a.jpg`, which satisfies
all three conjuncts. -/
theorem disk_guard_only_deletes_jpgs_in_directory_witness :
    pathJoin "d" "a.jpg" ∈ manage_disk_usage "d" egListing egDiskHigh 80 ∧
    ((∃ e ∈ egListing, pyEndsWith e.name ".jpg" = true ∧
        pathJoin "d" "a.jpg" = pathJoin "d" e.name) ∧
      pathJoin "d" "a.jpg" ≠ pathJoin "d" "metadata.csv" ∧
      pathJoin "d" "a.jpg" ≠ pathJoin "d" "README.md") :=
  ⟨by rw [egManage_eq]; exact List.mem_singleton.mpr rfl,
   disk_guard_only_deletes_jpgs_in_directory "d" egListing egDiskHigh 80
     (pathJoin "d" "a.jpg") (by rw [egManage_eq]; exact List.mem_singleton.mpr rfl)⟩

/-- Counterexample for C7: usage above threshold, two candidate images, and a
failing `os.remove`.  The call does not skip to the next candidate and
continue — the `OSError` escapes `manage_disk_usage` uncaught (there is no
try/except in lines 43-58), so the guard crashes; in particular the result is
not the skip-and-continue outcome that would have deleted the next
candidate. -/
theorem disk_guard_deletion_failure_counterexample :
    manage_disk_usageE "d" egListing egDiskHigh (fun _ => false) 80 =
      Except.error ("OSError: cannot remove " ++ pathJoin "d" "a.jpg") ∧
    manage_disk_usageE "d" egListing egDiskHigh (fun _ => false) 80 ≠
      Except.ok [pathJoin "d" "b.jpg"] := by
  have h : manage_disk_usageE "d" egListing egDiskHigh (fun _ => false) 80 =
      Except.error ("OSError: cannot remove " ++ pathJoin "d" "a.jpg") := by
    rw [manage_disk_usageE, if_pos egDiskHigh_gt, egCandidates_eq, evictE, if_pos egDiskHigh_gt]
    simp
  refine ⟨h, ?_⟩
  rw [h]
  simp

/-- C7 amended: when the usage is above the threshold and removing the first
candidate fails, the exception propagates out of `manage_disk_usage`
uncaught — the guard aborts instead of skipping to the next candidate. -/
theorem disk_guard_deletion_failure_propagates
    (directory : String) (listing : List DirEnt) (disk : Nat → DiskUsage)
    (removeOk : String → Bool) (threshold : ℚ) (f : String) (rest : List String)
    (h0 : usedPercentage (disk 0) > threshold)
    (hc : (jpgCandidatePairs directory listing).map Prod.fst = f :: rest)
    (hf : removeOk f = false) :
    manage_disk_usageE directory listing disk removeOk threshold =
      Except.error ("OSError: cannot remove " ++ f) := by
  rw [manage_disk_usageE, if_pos h0, hc, evictE, if_pos h0, hf]
  simp

/-- Witness for the amended C7 at the concrete failing-remove oracle. -/
theorem disk_guard_deletion_failure_propagates_witness :
    usedPercentage (egDiskHigh 0) > 80 ∧
    (jpgCandidatePairs "d" egListing).map Prod.fst =
      pathJoin "d" "a.jpg" :: [pathJoin "d" "b.jpg"] ∧
    ((fun _ => false : String → Bool) (pathJoin "d" "a.jpg")) = false ∧
    manage_disk_usageE "d" egListing egDiskHigh (fun _ => false) 80 =
      Except.error ("OSError: cannot remove " ++ pathJoin "d" "a.jpg") :=
  ⟨egDiskHigh_gt, egCandidates_eq, rfl,
   disk_guard_deletion_failure_propagates "d" egListing egDiskHigh (fun _ => false) 80
     (pathJoin "d" "a.jpg") [pathJoin "d" "b.jpg"] egDiskHigh_gt egCandidates_eq rfl⟩

theorem manage_disk_usage_eq_nil (directory : String) (listing : List DirEnt)
    (disk : Nat → DiskUsage) (threshold : ℚ)
    (h : usedPercentage (disk 0) ≤ threshold) :
    manage_disk_usage directory listing disk threshold = [] := by
  rw [manage_disk_usage, if_neg (not_lt.mpr h)]

theorem runIteration_ok_eq (outputDir metadataPath : String) (interval : Int) (env : IterEnv)
    (s : LoopState) (hcap : env.capture = CaptureOutcome.ok) (hint : 0 ≤ interval) :
    runIteration outputDir metadataPath interval env s =
      ([Event.strftimeCall (strftimeYmdHMS env.tm), Event.captureArray, Event.rotate90CW,
        Event.imwrite (pathJoin outputDir (strftimeYmdHMS env.tm ++ ".jpg")),
        Event.appendMetadata (strftimeYmdHMS env.tm)
          (pathJoin outputDir (strftimeYmdHMS env.tm ++ ".jpg")),
        Event.gitAdd [pathJoin outputDir (strftimeYmdHMS env.tm ++ ".jpg"), metadataPath]
          env.addOk,
        Event.gitCommit ("Add image and metadata for " ++ strftimeYmdHMS env.tm) env.commitOk,
        Event.gitPush env.pushOk,
        Event.logLine ("Captured and uploaded image at " ++ strftimeYmdHMS env.tm),
        Event.osRemove (pathJoin outputDir (strftimeYmdHMS env.tm ++ ".jpg")),
        Event.logLine ("Deleted local image at " ++
          pathJoin outputDir (strftimeYmdHMS env.tm ++ ".jpg")),
        Event.manageDiskUsageCall outputDir
          (manage_disk_usage outputDir
            (removeFileEntry
              (writeFileEntry s.dirFiles (strftimeYmdHMS env.tm ++ ".jpg") env.newCtime)
              (strftimeYmdHMS env.tm ++ ".jpg"))
            env.disk 80),
        Event.timeSleepCall interval],
       Except.ok (LoopState.mk
         ((removeFileEntry
             (writeFileEntry s.dirFiles (strftimeYmdHMS env.tm ++ ".jpg") env.newCtime)
             (strftimeYmdHMS env.tm ++ ".jpg")).filter
           (fun e =>
             !((manage_disk_usage outputDir
                 (removeFileEntry
                   (writeFileEntry s.dirFiles (strftimeYmdHMS env.tm ++ ".jpg") env.newCtime)
                   (strftimeYmdHMS env.tm ++ ".jpg"))
                 env.disk 80).contains (pathJoin outputDir e.name))))
         (s.metadataLines ++
           [strftimeYmdHMS env.tm ++ "," ++
             pathJoin outputDir (strftimeYmdHMS env.tm ++ ".jpg")]))) := by
  obtain ⟨tm, cap, aOk, cOk, pOk, disk, nc⟩ := env
  cases hcap
  simp only [runIteration, timeSleep, if_neg (not_lt.mpr hint)]
  rfl

theorem runLoop_succ_ok (outputDir metadataPath : String) (interval : Int)
    (envs : Nat → IterEnv) (fuel k : Nat) (s : LoopState) (acc tr : List Event) (s' : LoopState)
    (hit : runIteration outputDir metadataPath interval (envs k) s = (tr, Except.ok s')) :
    runLoop outputDir metadataPath interval envs (fuel + 1) k s acc =
      runLoop outputDir metadataPath interval envs fuel (k + 1) s' (acc ++ tr) := by
  rw [runLoop, hit]
  rfl

theorem runLoop_succ_error (outputDir metadataPath : String) (interval : Int)
    (envs : Nat → IterEnv) (fuel k : Nat) (s : LoopState) (acc tr : List Event) (e : String)
    (hit : runIteration outputDir metadataPath interval (envs k) s = (tr, Except.error e)) :
    runLoop outputDir metadataPath interval envs (fuel + 1) k s acc =
      ProgResult.crashed e (acc ++ tr) := by
  rw [runLoop, hit]
  rfl

/-- C1: in a successful iteration with a non-negative interval the executed
steps are exactly, and in this order: timestamp computation, frame capture,
90-degree clockwise rotation, image write to `<output_dir>/<timestamp>.jpg`,
ledger append of `(timestamp, path)`, git add, git commit, git push, the
upload log line, local image delete, the delete log line, the disk-guard call
on the output directory, and the sleep.  In particular the ledger append
strictly precedes the git (sync) steps, and the iteration completes. -/
theorem capture_loop_step_order (outputDir metadataPath : String) (interval : Int)
    (env : IterEnv) (s : LoopState)
    (hcap : env.capture = CaptureOutcome.ok) (hint : 0 ≤ interval) :
    (runIteration outputDir metadataPath interval env s).1 =
      [Event.strftimeCall (strftimeYmdHMS env.tm), Event.captureArray, Event.rotate90CW,
        Event.imwrite (pathJoin outputDir (strftimeYmdHMS env.tm ++ ".jpg")),
        Event.appendMetadata (strftimeYmdHMS env.tm)
          (pathJoin outputDir (strftimeYmdHMS env.tm ++ ".jpg")),
        Event.gitAdd [pathJoin outputDir (strftimeYmdHMS env.tm ++ ".jpg"), metadataPath]
          env.addOk,
        Event.gitCommit ("Add image and metadata for " ++ strftimeYmdHMS env.tm) env.commitOk,
        Event.gitPush env.pushOk,
        Event.logLine ("Captured and uploaded image at " ++ strftimeYmdHMS env.tm),
        Event.osRemove (pathJoin outputDir (strftimeYmdHMS env.tm ++ ".jpg")),
        Event.logLine ("Deleted local image at " ++
          pathJoin outputDir (strftimeYmdHMS env.tm ++ ".jpg")),
        Event.manageDiskUsageCall outputDir
          (manage_disk_usage outputDir
            (removeFileEntry
              (writeFileEntry s.dirFiles (strftimeYmdHMS env.tm ++ ".jpg") env.newCtime)
              (strftimeYmdHMS env.tm ++ ".jpg"))
            env.disk 80),
        Event.timeSleepCall interval] ∧
    ∃ s', (runIteration outputDir metadataPath interval env s).2 = Except.ok s' := by
  rw [runIteration_ok_eq outputDir metadataPath interval env s hcap hint]
  exact ⟨rfl, _, rfl⟩

/-- Witness for C1 at a concrete environment and state. -/
theorem capture_loop_step_order_witness :
    egEnvOk.capture = CaptureOutcome.ok ∧ (0 : Int) ≤ 5 ∧
    ((runIteration "d" "d/metadata.csv" 5 egEnvOk egState).1 =
      [Event.strftimeCall (strftimeYmdHMS egEnvOk.tm), Event.captureArray, Event.rotate90CW,
        Event.imwrite (pathJoin "d" (strftimeYmdHMS egEnvOk.tm ++ ".jpg")),
        Event.appendMetadata (strftimeYmdHMS egEnvOk.tm)
          (pathJoin "d" (strftimeYmdHMS egEnvOk.tm ++ ".jpg")),
        Event.gitAdd [pathJoin "d" (strftimeYmdHMS egEnvOk.tm ++ ".jpg"), "d/metadata.csv"]
          egEnvOk.addOk,
        Event.gitCommit ("Add image and metadata for " ++ strftimeYmdHMS egEnvOk.tm)
          egEnvOk.commitOk,
        Event.gitPush egEnvOk.pushOk,
        Event.logLine ("Captured and uploaded image at " ++ strftimeYmdHMS egEnvOk.tm),
        Event.osRemove (pathJoin "d" (strftimeYmdHMS egEnvOk.tm ++ ".jpg")),
        Event.logLine ("Deleted local image at " ++
          pathJoin "d" (strftimeYmdHMS egEnvOk.tm ++ ".jpg")),
        Event.manageDiskUsageCall "d"
          (manage_disk_usage "d"
            (removeFileEntry
              (writeFileEntry egState.dirFiles (strftimeYmdHMS egEnvOk.tm ++ ".jpg")
                egEnvOk.newCtime)
              (strftimeYmdHMS egEnvOk.tm ++ ".jpg"))
            egEnvOk.disk 80),
        Event.timeSleepCall 5] ∧
    ∃ s', (runIteration "d" "d/metadata.csv" 5 egEnvOk egState).2 = Except.ok s') :=
  ⟨rfl, by norm_num,
   capture_loop_step_order "d" "d/metadata.csv" 5 egEnvOk egState rfl (by norm_num)⟩

/-- C2: the `.2` (state outcome) of an iteration does not depend on the exit
statuses of the three git subprocesses — the script never inspects them — and
whenever the iteration completes (`Except.ok`), the directory no longer
contains the artifact `<timestamp>.jpg`: line 121's `os.remove` runs
unconditionally after the sync, and the disk guard only removes further
files. -/
theorem local_artifact_deleted_unconditionally (outputDir metadataPath : String)
    (interval : Int) (tm : Tm) (a b c a' b' c' : Bool) (disk : Nat → DiskUsage) (nc : Nat)
    (s : LoopState) :
    (runIteration outputDir metadataPath interval
        (IterEnv.mk tm CaptureOutcome.ok a b c disk nc) s).2 =
      (runIteration outputDir metadataPath interval
        (IterEnv.mk tm CaptureOutcome.ok a' b' c' disk nc) s).2 ∧
    ∀ s', (runIteration outputDir metadataPath interval
        (IterEnv.mk tm CaptureOutcome.ok a b c disk nc) s).2 = Except.ok s' →
      ∀ e ∈ s'.dirFiles, e.name ≠ strftimeYmdHMS tm ++ ".jpg" := by
  constructor
  · simp only [runIteration]
    cases h : timeSleep interval <;> simp [h]
  · intro s' hs' e he
    simp only [runIteration] at hs'
    cases h : timeSleep interval with
    | error msg =>
      rw [h] at hs'
      simp at hs'
    | ok u =>
      rw [h] at hs'
      simp only [Except.ok.injEq] at hs'
      rw [← hs'] at he
      simp only [List.mem_filter] at he
      obtain ⟨he1, _⟩ := he
      simp only [removeFileEntry, List.mem_filter] at he1
      exact bne_iff_ne.mp he1.2

theorem egIter_snd_eq :
    (runIteration "d" "d/metadata.csv" 5 egEnvOk egState).2 = Except.ok egStateAfter := by
  have h80 : usedPercentage (egEnvOk.disk 0) ≤ 80 := egDiskLow_le
  rw [runIteration_ok_eq "d" "d/metadata.csv" 5 egEnvOk egState rfl (by norm_num)]
  rw [manage_disk_usage_eq_nil "d" _ egEnvOk.disk 80 h80]
  rfl

/-- Witness for C2: the concrete iteration completes and its final directory
no longer holds the artifact. -/
theorem local_artifact_deleted_unconditionally_witness :
    (runIteration "d" "d/metadata.csv" 5 egEnvOk egState).2 = Except.ok egStateAfter ∧
    ∀ e ∈ egStateAfter.dirFiles, e.name ≠ strftimeYmdHMS egTm ++ ".jpg" :=
  ⟨egIter_snd_eq, fun e he =>
    (local_artifact_deleted_unconditionally "d" "d/metadata.csv" 5 egTm true true true
        true true true egDiskLow 3 egState).2 egStateAfter egIter_snd_eq e he⟩

/-- C3: when the guarded capture/rotate/save block raises, the iteration ends
with the state unchanged (`continue` on line 110 after the log line), its
trace contains no state-advancing step — no image write, no ledger append, no
git call, no local delete, no disk-guard call and no sleep — and the loop
immediately re-enters the next iteration with the same state; there is no
backoff and no attempt cap. -/
theorem capture_failure_restarts_immediately (outputDir metadataPath : String)
    (interval : Int) (env : IterEnv) (s : LoopState)
    (h : env.capture ≠ CaptureOutcome.ok) :
    (runIteration outputDir metadataPath interval env s).2 = Except.ok s ∧
    (∀ ev ∈ (runIteration outputDir metadataPath interval env s).1,
      advancesState ev = false) ∧
    (∀ (envs : Nat → IterEnv) (fuel k : Nat) (acc : List Event), envs k = env →
      runLoop outputDir metadataPath interval envs (fuel + 1) k s acc =
        runLoop outputDir metadataPath interval envs fuel (k + 1) s
          (acc ++ (runIteration outputDir metadataPath interval env s).1)) := by
  obtain ⟨tm, cap, aOk, cOk, pOk, disk, nc⟩ := env
  cases cap with
  | ok => exact absurd rfl h
  | failCapture msg =>
    refine ⟨rfl, ?_, ?_⟩
    · intro ev hev
      simp only [runIteration, List.mem_cons, List.not_mem_nil, or_false] at hev
      rcases hev with h1 | h1 | h1 <;> subst h1 <;> rfl
    · intro envs fuel k acc henv
      exact runLoop_succ_ok outputDir metadataPath interval envs fuel k s acc _ s
        (by rw [henv]; rfl)
  | failRotate msg =>
    refine ⟨rfl, ?_, ?_⟩
    · intro ev hev
      simp only [runIteration, List.mem_cons, List.not_mem_nil, or_false] at hev
      rcases hev with h1 | h1 | h1 | h1 <;> subst h1 <;> rfl
    · intro envs fuel k acc henv
      exact runLoop_succ_ok outputDir metadataPath interval envs fuel k s acc _ s
        (by rw [henv]; rfl)
  | failWrite msg =>
    refine ⟨rfl, ?_, ?_⟩
    · intro ev hev
      simp only [runIteration, List.mem_cons, List.not_mem_nil, or_false] at hev
      rcases hev with h1 | h1 | h1 | h1 <;> subst h1 <;> rfl
    · intro envs fuel k acc henv
      exact runLoop_succ_ok outputDir metadataPath interval envs fuel k s acc _ s
        (by rw [henv]; rfl)

/-- Witness for C3 at a concrete failing environment. -/
theorem capture_failure_restarts_immediately_witness :
    egEnvFail.capture ≠ CaptureOutcome.ok ∧
    ((runIteration "d" "d/metadata.csv" 5 egEnvFail egState).2 = Except.ok egState ∧
    (∀ ev ∈ (runIteration "d" "d/metadata.csv" 5 egEnvFail egState).1,
      advancesState ev = false) ∧
    (∀ (envs : Nat → IterEnv) (fuel k : Nat) (acc : List Event), envs k = egEnvFail →
      runLoop "d" "d/metadata.csv" 5 envs (fuel + 1) k egState acc =
        runLoop "d" "d/metadata.csv" 5 envs fuel (k + 1) egState
          (acc ++ (runIteration "d" "d/metadata.csv" 5 egEnvFail egState).1))) :=
  ⟨by decide,
   capture_failure_restarts_immediately "d" "d/metadata.csv" 5 egEnvFail egState (by decide)⟩

/-- C9: the converter applied by argparse to `image_interval` is plain
`int()`, which accepts zero and negative integers — no positivity check
exists anywhere in the script — and with a negative interval the first
successful iteration reaches `time.sleep(interval)`, which raises a
`ValueError` that nothing catches: the loop call crashes the process. -/
theorem negative_interval_unchecked_and_fatal (outputDir metadataPath : String)
    (interval : Int) (env : IterEnv) (s : LoopState)
    (hneg : interval < 0) (hcap : env.capture = CaptureOutcome.ok) :
    pyInt "0" = some 0 ∧ pyInt "-5" = some (-5) ∧
    (runIteration outputDir metadataPath interval env s).2 =
      Except.error "ValueError: sleep length must be non-negative" ∧
    (∀ (envs : Nat → IterEnv) (fuel k : Nat) (acc : List Event), envs k = env →
      runLoop outputDir metadataPath interval envs (fuel + 1) k s acc =
        ProgResult.crashed "ValueError: sleep length must be non-negative"
          (acc ++ (runIteration outputDir metadataPath interval env s).1)) := by
  obtain ⟨tm, cap, aOk, cOk, pOk, disk, nc⟩ := env
  cases hcap
  have herr : (runIteration outputDir metadataPath interval
      (IterEnv.mk tm CaptureOutcome.ok aOk cOk pOk disk nc) s).2 =
      Except.error "ValueError: sleep length must be non-negative" := by
    simp only [runIteration, timeSleep, if_pos hneg]
  refine ⟨by decide, by decide, herr, ?_⟩
  intro envs fuel k acc henv
  refine runLoop_succ_error outputDir metadataPath interval envs fuel k s acc _ _ ?_
  rw [henv, ← herr]

/-- Witness for C9 at interval `-5`. -/
theorem negative_interval_unchecked_and_fatal_witness :
    (-5 : Int) < 0 ∧ egEnvOk.capture = CaptureOutcome.ok ∧
    (pyInt "0" = some 0 ∧ pyInt "-5" = some (-5) ∧
     (runIteration "d" "d/metadata.csv" (-5) egEnvOk egState).2 =
       Except.error "ValueError: sleep length must be non-negative" ∧
     (∀ (envs : Nat → IterEnv) (fuel k : Nat) (acc : List Event), envs k = egEnvOk →
        runLoop "d" "d/metadata.csv" (-5) envs (fuel + 1) k egState acc =
          ProgResult.crashed "ValueError: sleep length must be non-negative"
            (acc ++ (runIteration "d" "d/metadata.csv" (-5) egEnvOk egState).1))) :=
  ⟨by norm_num, rfl,
   negative_interval_unchecked_and_fatal "d" "d/metadata.csv" (-5) egEnvOk egState
     (by norm_num) rfl⟩

theorem camStop_not_mem_iteration (outputDir metadataPath : String) (interval : Int)
    (env : IterEnv) (s : LoopState) :
    Event.camStop ∉ (runIteration outputDir metadataPath interval env s).1 := by
  obtain ⟨tm, cap, aOk, cOk, pOk, disk, nc⟩ := env
  cases cap with
  | ok =>
    simp only [runIteration]
    cases h : timeSleep interval with
    | error e => simp
    | ok u => simp
  | failCapture msg => simp [runIteration]
  | failRotate msg => simp [runIteration]
  | failWrite msg => simp [runIteration]

/-- C10: because the condition on line 100 is literally `True`, the loop
never exits normally: however much fuel is given, the run never reaches the
`finished` outcome, and the post-loop statements `picam2.stop()` and
`print("Camera stopped.")` (lines 128-129) never appear in the trace. -/
theorem post_loop_statements_unreachable (outputDir metadataPath : String) (interval : Int)
    (envs : Nat → IterEnv) (fuel : Nat) :
    ∀ (k : Nat) (s : LoopState) (acc : List Event), Event.camStop ∉ acc →
      (∀ tr, runLoop outputDir metadataPath interval envs fuel k s acc ≠
        ProgResult.finished tr) ∧
      Event.camStop ∉ traceOf (runLoop outputDir metadataPath interval envs fuel k s acc) := by
  induction fuel with
  | zero =>
    intro k s acc hacc
    constructor
    · intro tr hcontra
      rw [runLoop] at hcontra
      exact ProgResult.noConfusion hcontra
    · rw [runLoop, traceOf]
      exact hacc
  | succ fuel ih =>
    intro k s acc hacc
    have hnm := camStop_not_mem_iteration outputDir metadataPath interval (envs k) s
    rcases hres : runIteration outputDir metadataPath interval (envs k) s with ⟨tr, res⟩
    have hacc' : Event.camStop ∉ acc ++ tr := by
      intro hc
      rcases List.mem_append.mp hc with hc1 | hc1
      · exact hacc hc1
      · rw [hres] at hnm
        exact hnm hc1
    cases res with
    | error e =>
      rw [runLoop_succ_error outputDir metadataPath interval envs fuel k s acc tr e hres]
      exact ⟨fun tr' hcon => ProgResult.noConfusion hcon, hacc'⟩
    | ok s' =>
      rw [runLoop_succ_ok outputDir metadataPath interval envs fuel k s acc tr s' hres]
      exact ih (k + 1) s' (acc ++ tr) hacc'

/-- Witness for C10 at one unit of fuel from the bootstrap state. -/
theorem post_loop_statements_unreachable_witness :
    Event.camStop ∉ ([] : List Event) ∧
    ((∀ tr, runLoop "d" "d/metadata.csv" 5 (fun _ => egEnvOk) 1 0 egState [] ≠
        ProgResult.finished tr) ∧
      Event.camStop ∉
        traceOf (runLoop "d" "d/metadata.csv" 5 (fun _ => egEnvOk) 1 0 egState [])) :=
  ⟨by simp,
   post_loop_statements_unreachable "d" "d/metadata.csv" 5 (fun _ => egEnvOk) 1 0 egState []
     (by simp)⟩

theorem strftime_data (tm : Tm) : (strftimeYmdHMS tm).data = tsChars tm := by
  rfl

theorem ledgerEntry_data (od : String) (tm : Tm) :
    (ledgerEntry od tm).data =
      tsChars tm ++ ',' :: (od.data ++ '/' :: (tsChars tm ++ ['.', 'j', 'p', 'g'])) := by
  simp only [ledgerEntry, pathJoin, String.data_append, strftime_data, List.append_assoc]
  rfl

theorem matchesLedgerPattern_ledgerEntry (od : String) (tm : Tm) :
    matchesLedgerPattern (ledgerEntry od tm) = true := by
  have h10 : ∀ m, m < 10 → (digitChar m).isDigit = true := by decide
  have hd : ∀ n, (digitChar (n % 10)).isDigit = true :=
    fun n => h10 (n % 10) (Nat.mod_lt n (by decide))
  rw [matchesLedgerPattern]
  rw [ledgerEntry_data]
  simp only [tsChars, List.cons_append, List.nil_append, List.all_cons, List.all_nil, hd,
    Bool.and_true, Bool.true_and, beq_self_eq_true, Bool.and_eq_true]
  rw [List.isSuffixOf_iff_suffix]
  refine List.IsSuffix.trans ?_ (List.suffix_append od.data _)
  exact ⟨['/', digitChar (tm.year / 1000 % 10), digitChar (tm.year / 100 % 10),
    digitChar (tm.year / 10 % 10), digitChar (tm.year % 10), digitChar (tm.mon / 10 % 10),
    digitChar (tm.mon % 10), digitChar (tm.mday / 10 % 10), digitChar (tm.mday % 10), '-',
    digitChar (tm.hour / 10 % 10), digitChar (tm.hour % 10), digitChar (tm.minute / 10 % 10),
    digitChar (tm.minute % 10), digitChar (tm.sec / 10 % 10), digitChar (tm.sec % 10)], rfl⟩

theorem runIteration_ok_shape (outputDir metadataPath : String) (interval : Int)
    (env : IterEnv) (s : LoopState) (hcap : env.capture = CaptureOutcome.ok)
    (hint : 0 ≤ interval) :
    ∃ tr1 s1, runIteration outputDir metadataPath interval env s = (tr1, Except.ok s1) ∧
      s1.metadataLines = s.metadataLines ++ [ledgerEntry outputDir env.tm] :=
  ⟨_, _, runIteration_ok_eq outputDir metadataPath interval env s hcap hint, rfl⟩

theorem range_map_shift {α : Type} (f : Nat → α) (n k : Nat) :
    f k :: (List.range n).map (fun i => f (k + 1 + i)) =
      (List.range (n + 1)).map (fun i => f (k + i)) := by
  rw [List.range_succ_eq_map, List.map_cons, List.map_map]
  refine congrArg₂ List.cons (by rw [Nat.add_zero]) ?_
  apply List.map_congr_left
  intro a ha
  show f (k + 1 + a) = f (k + (a + 1))
  have h1 : k + 1 + a = k + (a + 1) := by omega
  rw [h1]

theorem runLoop_ledger (outputDir metadataPath : String) (interval : Int)
    (envs : Nat → IterEnv) (hcap : ∀ k, (envs k).capture = CaptureOutcome.ok)
    (hint : 0 ≤ interval) :
    ∀ (n k : Nat) (s : LoopState) (acc : List Event),
      ∃ tr s', runLoop outputDir metadataPath interval envs n k s acc =
          ProgResult.outOfFuel tr s' ∧
        s'.metadataLines = s.metadataLines ++
          (List.range n).map (fun i => ledgerEntry outputDir (envs (k + i)).tm) := by
  intro n
  induction n with
  | zero =>
    intro k s acc
    refine ⟨acc, s, ?_, ?_⟩
    · rw [runLoop]
    · simp
  | succ n ih =>
    intro k s acc
    obtain ⟨tr1, s1, hstep, hs1⟩ :=
      runIteration_ok_shape outputDir metadataPath interval (envs k) s (hcap k) hint
    have hloop := runLoop_succ_ok outputDir metadataPath interval envs n k s acc tr1 s1 hstep
    obtain ⟨tr, s', heq, hml⟩ := ih (k + 1) s1 (acc ++ tr1)
    refine ⟨tr, s', ?_, ?_⟩
    · rw [hloop]
      exact heq
    · rw [hml, hs1, List.append_assoc]
      rw [List.singleton_append, range_map_shift (fun i => ledgerEntry outputDir (envs i).tm)]

/-- C8: starting from a freshly bootstrapped ledger (the header is written
exactly once, on lines 83-85, and only because the file did not exist — an
existing file is left untouched), N successful iterations with a
non-negative interval leave the ledger with exactly N+1 lines: the header
followed by N entries, each matching the spec's entry pattern; and the ledger
after any m ≤ N iterations is a prefix of the ledger after N, so no prior
entry is ever rewritten or removed. -/
theorem ledger_header_once_and_append_only (outputDir metadataPath : String) (interval : Int)
    (envs : Nat → IterEnv) (n : Nat) (s0 : LoopState)
    (hs0 : s0.metadataLines = bootstrapMetadata none)
    (hcap : ∀ k, (envs k).capture = CaptureOutcome.ok) (hint : 0 ≤ interval) :
    (∀ lines, bootstrapMetadata (some lines) = lines) ∧
    ∃ tr s', runLoop outputDir metadataPath interval envs n 0 s0 [] =
        ProgResult.outOfFuel tr s' ∧
      s'.metadataLines.length = n + 1 ∧
      s'.metadataLines.head? = some "Timestamp,Image Path" ∧
      (∀ l ∈ s'.metadataLines.tail, matchesLedgerPattern l = true) ∧
      (∀ m, m ≤ n → ∃ tr2 s2, runLoop outputDir metadataPath interval envs m 0 s0 [] =
          ProgResult.outOfFuel tr2 s2 ∧ s2.metadataLines <+: s'.metadataLines) := by
  refine ⟨fun lines => rfl, ?_⟩
  obtain ⟨tr, s', heq, hml⟩ :=
    runLoop_ledger outputDir metadataPath interval envs hcap hint n 0 s0 []
  have hml' : s'.metadataLines =
      "Timestamp,Image Path" ::
        (List.range n).map (fun i => ledgerEntry outputDir (envs (0 + i)).tm) := by
    rw [hml, hs0]
    rfl
  refine ⟨tr, s', heq, ?_, ?_, ?_, ?_⟩
  · rw [hml']
    simp
  · rw [hml']
    rfl
  · intro l hl
    rw [hml'] at hl
    simp only [List.tail_cons] at hl
    obtain ⟨i, hi, hli⟩ := List.mem_map.mp hl
    rw [← hli]
    exact matchesLedgerPattern_ledgerEntry outputDir (envs (0 + i)).tm
  · intro m hm
    obtain ⟨tr2, s2, heq2, hml2⟩ :=
      runLoop_ledger outputDir metadataPath interval envs hcap hint m 0 s0 []
    refine ⟨tr2, s2, heq2, ?_⟩
    rw [hml2, hml]
    have hpre : (List.range m).map (fun i => ledgerEntry outputDir (envs (0 + i)).tm) <+:
        (List.range n).map (fun i => ledgerEntry outputDir (envs (0 + i)).tm) := by
      have hr : List.range m = (List.range n).take m := by
        rw [List.take_range, Nat.min_eq_left hm]
      rw [hr, List.map_take]
      exact List.take_prefix m _
    obtain ⟨t, ht⟩ := hpre
    exact ⟨t, by rw [List.append_assoc, ht]⟩

/-- Witness for C8: one successful iteration from the bootstrapped state. -/
theorem ledger_header_once_and_append_only_witness :
    egState.metadataLines = bootstrapMetadata none ∧
    (∀ k : Nat, ((fun _ => egEnvOk : Nat → IterEnv) k).capture = CaptureOutcome.ok) ∧
    (0 : Int) ≤ 5 ∧
    ((∀ lines, bootstrapMetadata (some lines) = lines) ∧
     ∃ tr s', runLoop "d" "d/metadata.csv" 5 (fun _ => egEnvOk) 1 0 egState [] =
         ProgResult.outOfFuel tr s' ∧
       s'.metadataLines.length = 1 + 1 ∧
       s'.metadataLines.head? = some "Timestamp,Image Path" ∧
       (∀ l ∈ s'.metadataLines.tail, matchesLedgerPattern l = true) ∧
       (∀ m, m ≤ 1 →
          ∃ tr2 s2, runLoop "d" "d/metadata.csv" 5 (fun _ => egEnvOk) m 0 egState [] =
            ProgResult.outOfFuel tr2 s2 ∧ s2.metadataLines <+: s'.metadataLines)) :=
  ⟨rfl, fun _ => rfl, by norm_num,
   ledger_header_once_and_append_only "d" "d/metadata.csv" 5 (fun _ => egEnvOk) 1 egState rfl
     (fun _ => rfl) (by norm_num)⟩
